import Mathlib

/-!
Verification of the request handlers in `django_browserid/views.py`.

The module is glue code around external collaborators.  The embedding
keeps the source structure: each handler is a function from a request
(plus the collaborators it reads: settings, the URL-safety validator,
the authentication backend, the template-context provider) to a pair of
an effect trace and an HTTP response.  Side effects of the original code
(`auth.login`, `auth.logout`, `logger.error`, `auth.authenticate`,
`sanity_checks`, forcing a lazy CSRF token) are recorded as explicit
effects in the trace, in the order the source performs them.
-/

/-- An authenticated principal, as the handlers use it: it exposes an
email and an `is_active` flag (`self.user.email`, `self.user.is_active`). -/
structure User where
  email : String
  is_active : Bool
deriving DecidableEq

/-- An exception raised by the authentication backend.  `isBrowserID`
distinguishes the verification-specific `BrowserIDException` from any
other exception; the source catches both with the same `except` clause. -/
structure Err where
  isBrowserID : Bool
  msg : String
deriving DecidableEq

/-- Observable side effects of a handler, recorded in source order. -/
inductive Effect where
  | sanity
  | authenticate (assertion : String)
  | login (u : User)
  | logoutCall
  | logError (e : Err)
  | forceLazy
deriving DecidableEq

/-- An inbound request: lower-cased HTTP method name, POST parameters as
an association list (one value per key, as `QueryDict.get` reads it),
and the value of `request.get_host()`. -/
structure Request where
  methName : String
  post : List (String × String)
  host : String

/-- Process-wide configuration the handlers read with `getattr(settings, name, fallback)`.
A `none` field models the setting being absent. -/
structure Settings where
  LOGIN_REDIRECT_URL : Option String
  LOGIN_REDIRECT_URL_FAILURE : Option String
  LOGOUT_REDIRECT_URL : Option String

/-- Response body: a JSON object over the keys the handlers emit
(email, redirect, error), or plain text (the CSRF handler). -/
inductive Body where
  | json (email redirect error : Option String)
  | text (content : String)
deriving DecidableEq

/-- An outbound response: status code, body, and the headers the
handlers set explicitly (Allow, Cache-Control). -/
structure Response where
  status : Nat
  body : Body
  headers : List (String × String)
deriving DecidableEq

/-- The framework URL-safety validator `is_safe_url(url, host=host)`,
an external collaborator: it judges an optional URL against a host. -/
def SafeUrl : Type := Option String → String → Bool

/-- Outcome of `auth.authenticate(request=..., assertion=...)`: it either
raises an exception or returns a principal (`None` modelled as `none`). -/
inductive AuthOutcome where
  | raises (e : Err)
  | success (u : Option User)

/-- The external authentication backend as a function of the request and
the assertion string. -/
def Backend : Type := Request → String → AuthOutcome

/-- Python truthiness of a string read from POST data: `None` and the
empty string are falsy (`if not assertion:`). -/
def pyFalsyStr : Option String → Bool
  | none => true
  | some s => s == ""

/-- Python `a or b` for an optional string `a` and a string `b`:
`None` and the empty string fall through to `b`. -/
def pyOrStr (a : Option String) (b : String) : String :=
  match a with
  | none => b
  | some s => if s == "" then b else s

/-- Django `View.http_method_names`: the verbs method dispatch recognises. -/
def http_method_names : List String :=
  ["get", "post", "put", "patch", "delete", "head", "options", "trace"]

/-- Python `str.upper()` as the source applies it to the ASCII method
names (`m.upper()`): upper-case every character. -/
def pyUpper (s : String) : String := String.mk (s.data.map Char.toUpper)

/-- `JSONView.http_method_not_allowed`: a 405 JSON error response whose
Allow header joins the upper-cased names of the verbs in
`http_method_names` for which `hasattr(self, m)` holds; `hasMethod`
stands for that `hasattr` test on the concrete handler. -/
def JSONView.http_method_not_allowed (hasMethod : String → Bool) : Response :=
  let allowed_methods := (http_method_names.filter hasMethod).map pyUpper
  { status := 405
    body := Body.json none none (some "Method not allowed.")
    headers := [("Allow", String.intercalate ", " allowed_methods)] }

/-- `_get_next(request)`: read the `next` POST parameter and return it
when `is_safe_url(next, host=request.get_host())` accepts it, else `None`. -/
def _get_next (safe : SafeUrl) (request : Request) : Option String :=
  let nxt := request.post.lookup "next"
  if safe nxt request.host then nxt else none

/-- `Verify.failure_url`: `getattr(settings, 'LOGIN_REDIRECT_URL_FAILURE', '/')`. -/
def Verify.failure_url (cfg : Settings) : String :=
  cfg.LOGIN_REDIRECT_URL_FAILURE.getD "/"

/-- `Verify.success_url`: `getattr(settings, 'LOGIN_REDIRECT_URL', '/')`. -/
def Verify.success_url (cfg : Settings) : String :=
  cfg.LOGIN_REDIRECT_URL.getD "/"

/-- `Verify.login_success`: call `auth.login(self.request, self.user)` and
answer 200 with the email and `_get_next(self.request) or self.success_url`. -/
def Verify.login_success (cfg : Settings) (safe : SafeUrl) (request : Request)
    (user : User) : List Effect × Response :=
  ([Effect.login user],
   { status := 200
     body := Body.json (some user.email)
       (some (pyOrStr (_get_next safe request) (Verify.success_url cfg))) none
     headers := [] })

/-- `Verify.login_failure`: log the error at error severity when one is
supplied (`if error: logger.error(error)`), and answer 403 with the
failure URL as the only body key. -/
def Verify.login_failure (cfg : Settings) (error : Option Err) :
    List Effect × Response :=
  ((match error with
    | some e => [Effect.logError e]
    | none => []),
   { status := 403
     body := Body.json none (some (Verify.failure_url cfg)) none
     headers := [] })

/-- `Verify.post`: read the assertion; when falsy go straight to failure;
otherwise call `auth.authenticate` and branch on its outcome exactly as
the `try`/`except` and the `if self.user and self.user.is_active` do. -/
def Verify.post (cfg : Settings) (safe : SafeUrl) (backend : Backend)
    (request : Request) : List Effect × Response :=
  let assertion := request.post.lookup "assertion"
  if pyFalsyStr assertion then
    Verify.login_failure cfg none
  else
    let a := assertion.getD ""
    match backend request a with
    | AuthOutcome.raises e =>
        let (es, r) := Verify.login_failure cfg (some e)
        (Effect.authenticate a :: es, r)
    | AuthOutcome.success u =>
        match u with
        | some user =>
            if user.is_active then
              let (es, r) := Verify.login_success cfg safe request user
              (Effect.authenticate a :: es, r)
            else
              let (es, r) := Verify.login_failure cfg none
              (Effect.authenticate a :: es, r)
        | none =>
            let (es, r) := Verify.login_failure cfg none
            (Effect.authenticate a :: es, r)

/-- Methods the `Verify` view itself implements among the HTTP verbs:
only `post`. -/
def Verify.hasMethod (m : String) : Bool := m == "post"

/-- Modelled from the spec: the framework `View.dispatch` is an external
collaborator not under src/; the spec prescribes an explicit switch from
method name to handler function with a default producing the 405
envelope listing implemented methods.  `Verify.dispatch` in the source
additionally runs `sanity_checks(request)` before dispatching. -/
def Verify.handle (cfg : Settings) (safe : SafeUrl) (backend : Backend)
    (request : Request) : List Effect × Response :=
  let (es, r) :=
    if request.methName == "post" then Verify.post cfg safe backend request
    else ([], JSONView.http_method_not_allowed Verify.hasMethod)
  (Effect.sanity :: es, r)

/-- `Logout.redirect_url`: `getattr(settings, 'LOGOUT_REDIRECT_URL', '/')`. -/
def Logout.redirect_url (cfg : Settings) : String :=
  cfg.LOGOUT_REDIRECT_URL.getD "/"

/-- `Logout.post`: call `auth.logout(request)`, then answer 200 with
`_get_next(self.request) or self.redirect_url`. -/
def Logout.post (cfg : Settings) (safe : SafeUrl) (request : Request) :
    List Effect × Response :=
  ([Effect.logoutCall],
   { status := 200
     body := Body.json none
       (some (pyOrStr (_get_next safe request) (Logout.redirect_url cfg))) none
     headers := [] })

/-- Methods the `Logout` view implements among the HTTP verbs: only `post`. -/
def Logout.hasMethod (m : String) : Bool := m == "post"

/-- Modelled from the spec: framework method dispatch for the `Logout`
view, an explicit switch with the 405 envelope as default. -/
def Logout.handle (cfg : Settings) (safe : SafeUrl) (request : Request) :
    List Effect × Response :=
  if request.methName == "post" then Logout.post cfg safe request
  else ([], JSONView.http_method_not_allowed Logout.hasMethod)

/-- A value that may be deferred: the CSRF token pulled from the template
context can be a lazily-computed string. -/
inductive LazyStr where
  | strict (s : String)
  | deferred (f : Unit → String)

/-- `six.text_type(x)`: forcing a value to a concrete string.  Forcing a
deferred value evaluates it, which the trace records as an effect. -/
def six_text_type : LazyStr → List Effect × String
  | LazyStr.strict s => ([], s)
  | LazyStr.deferred f => ([Effect.forceLazy], f ())

/-- `CsrfToken.get`: pull `csrf_token` from `RequestContext(request)`
(defaulting to the empty string), force it to a concrete string, and
answer it as plain text; `@never_cache` sets `Cache-Control: max-age=0`.
`ctxOf` stands for the external `RequestContext` collaborator. -/
def CsrfToken.get (ctxOf : Request → Option LazyStr) (request : Request) :
    List Effect × Response :=
  let csrf_token := (ctxOf request).getD (LazyStr.strict "")
  let (es, s) := six_text_type csrf_token
  (es,
   { status := 200
     body := Body.text s
     headers := [("Cache-Control", "max-age=0")] })

/-- Methods the `CsrfToken` view implements among the HTTP verbs: only `get`. -/
def CsrfToken.hasMethod (m : String) : Bool := m == "get"

/-- Modelled from the spec: framework method dispatch for the `CsrfToken`
view, an explicit switch with the 405 envelope as default. -/
def CsrfToken.handle (ctxOf : Request → Option LazyStr) (request : Request) :
    List Effect × Response :=
  if request.methName == "get" then CsrfToken.get ctxOf request
  else ([], JSONView.http_method_not_allowed CsrfToken.hasMethod)

/-- Success body shape: email and redirect present, no error key. -/
def Body.successShape : Body → Bool
  | Body.json (some _) (some _) none => true
  | _ => false

/-- Failure body shape: redirect only. -/
def Body.redirectOnlyShape : Body → Bool
  | Body.json none (some _) none => true
  | _ => false

/-- Method-not-allowed body shape: error only. -/
def Body.errorOnlyShape : Body → Bool
  | Body.json none none (some _) => true
  | _ => false

/-- Plain-text body (the CSRF handler). -/
def Body.isText : Body → Bool
  | Body.text _ => true
  | _ => false

/-- The response-shape invariant exactly as the spec states it: a
success payload at status 200, or a redirect-only payload at a non-200
status. -/
def specShapeInvariant (r : Response) : Bool :=
  (r.body.successShape && r.status == 200) ||
  (r.body.redirectOnlyShape && !(r.status == 200))

/-- Example configuration: the spec scenarios' settings. -/
def cfgEx : Settings :=
  { LOGIN_REDIRECT_URL := some "/success"
    LOGIN_REDIRECT_URL_FAILURE := some "/fail"
    LOGOUT_REDIRECT_URL := some "/out" }

/-- Example validator that rejects every URL. -/
def safeFalse : SafeUrl := fun _ _ => false

/-- Example principal from the spec scenario. -/
def userEx : User := { email := "a@b.com", is_active := true }

/-- Example backend: maps the assertion `valid-token` to `userEx` and
every other assertion to no principal. -/
def backendEx : Backend := fun _ a =>
  if a == "valid-token" then AuthOutcome.success (some userEx)
  else AuthOutcome.success none

/-- Example error object. -/
def errEx : Err := { isBrowserID := true, msg := "hsakjw" }

/-- Example backend that raises `errEx` on every call. -/
def backendRaises : Backend := fun _ _ => AuthOutcome.raises errEx

/-- Example POST request carrying the valid assertion. -/
def reqVerifyEx : Request :=
  { methName := "post", post := [("assertion", "valid-token")], host := "testserver" }

/-- Example POST request with no assertion parameter. -/
def reqNoAssert : Request :=
  { methName := "post", post := [("blah", "asdf")], host := "testserver" }

/-- Example POST request with an empty assertion parameter. -/
def reqEmptyAssert : Request :=
  { methName := "post", post := [("assertion", "")], host := "testserver" }

/-- Example POST request with an assertion the backend rejects. -/
def reqOtherAssert : Request :=
  { methName := "post", post := [("assertion", "other")], host := "testserver" }

/-- Example GET request. -/
def reqGetEx : Request := { methName := "get", post := [], host := "testserver" }

/-- Example bare POST request. -/
def reqPostEx : Request := { methName := "post", post := [], host := "testserver" }

/-- Example POST request carrying a `next` parameter. -/
def reqNextEx : Request :=
  { methName := "post", post := [("next", "/asdf")], host := "myhost" }

/-- Example validator accepting exactly `/asdf` on host `myhost`. -/
def safeAsdf : SafeUrl := fun o h => o == some "/asdf" && h == "myhost"

/-- Example context provider yielding a deferred CSRF token. -/
def ctxDeferredEx : Request → Option LazyStr :=
  fun _ => some (LazyStr.deferred (fun _ => "asdf"))

lemma pyOrStr_eq_getD (o : Option String) (d : String) (h : o ≠ some "") :
    pyOrStr o d = o.getD d := by
  cases o with
  | none => rfl
  | some s =>
      have hs : s ≠ "" := fun h0 => h (by rw [h0])
      simp [pyOrStr, Option.getD, hs]

/-- C2: a POST to the Verify handler with no assertion parameter answers
403 with the configured failure URL (LOGIN_REDIRECT_URL_FAILURE,
defaulting to /) as the only body value, and the authentication backend
is never invoked. -/
theorem Verify.post_missing_assertion (cfg : Settings) (safe : SafeUrl)
    (backend : Backend) (req : Request)
    (hm : req.methName = "post")
    (ha : req.post.lookup "assertion" = none) :
    Verify.handle cfg safe backend req =
      ([Effect.sanity],
       { status := 403
         body := Body.json none (some (cfg.LOGIN_REDIRECT_URL_FAILURE.getD "/")) none
         headers := [] }) ∧
    ∀ s, Effect.authenticate s ∉ (Verify.handle cfg safe backend req).1 := by
  have h1 : Verify.handle cfg safe backend req =
      ([Effect.sanity],
       { status := 403
         body := Body.json none (some (cfg.LOGIN_REDIRECT_URL_FAILURE.getD "/")) none
         headers := [] }) := by
    simp [Verify.handle, hm, Verify.post, ha, pyFalsyStr, Verify.login_failure,
      Verify.failure_url]
  refine ⟨h1, ?_⟩
  rw [h1]
  intro s
  simp

/-- C2 witness: the spec scenario with LOGIN_REDIRECT_URL_FAILURE=/fail. -/
theorem Verify.post_missing_assertion_witness :
    Verify.handle cfgEx safeFalse backendEx reqNoAssert =
      ([Effect.sanity],
       { status := 403, body := Body.json none (some "/fail") none, headers := [] }) ∧
    ∀ s, Effect.authenticate s ∉ (Verify.handle cfgEx safeFalse backendEx reqNoAssert).1 :=
  Verify.post_missing_assertion cfgEx safeFalse backendEx reqNoAssert rfl rfl

/-- C10: a POST to the Verify handler whose assertion parameter is the
empty string behaves exactly as the missing-assertion case: 403 with the
failure URL, backend never invoked (the source tests truthiness). -/
theorem Verify.post_empty_assertion (cfg : Settings) (safe : SafeUrl)
    (backend : Backend) (req : Request)
    (hm : req.methName = "post")
    (ha : req.post.lookup "assertion" = some "") :
    Verify.handle cfg safe backend req =
      ([Effect.sanity],
       { status := 403
         body := Body.json none (some (cfg.LOGIN_REDIRECT_URL_FAILURE.getD "/")) none
         headers := [] }) ∧
    ∀ s, Effect.authenticate s ∉ (Verify.handle cfg safe backend req).1 := by
  have h1 : Verify.handle cfg safe backend req =
      ([Effect.sanity],
       { status := 403
         body := Body.json none (some (cfg.LOGIN_REDIRECT_URL_FAILURE.getD "/")) none
         headers := [] }) := by
    simp [Verify.handle, hm, Verify.post, ha, pyFalsyStr, Verify.login_failure,
      Verify.failure_url]
  refine ⟨h1, ?_⟩
  rw [h1]
  intro s
  simp

/-- C10 witness: empty assertion string at concrete inputs. -/
theorem Verify.post_empty_assertion_witness :
    Verify.handle cfgEx safeFalse backendEx reqEmptyAssert =
      ([Effect.sanity],
       { status := 403, body := Body.json none (some "/fail") none, headers := [] }) ∧
    ∀ s, Effect.authenticate s ∉ (Verify.handle cfgEx safeFalse backendEx reqEmptyAssert).1 :=
  Verify.post_empty_assertion cfgEx safeFalse backendEx reqEmptyAssert rfl rfl

/-- C1: a POST to the Verify handler whose assertion the backend maps to
an existing active principal logs the principal in and answers 200 with
the principal's email and, as redirect, the resolved next URL when one
resolves, otherwise LOGIN_REDIRECT_URL (defaulting to /).  The
hypothesis on `_get_next` records that the framework validator never
accepts an empty URL. -/
theorem Verify.post_success_active (cfg : Settings) (safe : SafeUrl)
    (backend : Backend) (req : Request) (a : String) (user : User)
    (hm : req.methName = "post")
    (ha : req.post.lookup "assertion" = some a) (hne : a ≠ "")
    (hb : backend req a = AuthOutcome.success (some user))
    (hactive : user.is_active = true)
    (hnx : _get_next safe req ≠ some "") :
    Verify.handle cfg safe backend req =
      ([Effect.sanity, Effect.authenticate a, Effect.login user],
       { status := 200
         body := Body.json (some user.email)
           (some ((_get_next safe req).getD (cfg.LOGIN_REDIRECT_URL.getD "/"))) none
         headers := [] }) := by
  simp [Verify.handle, hm, Verify.post, ha, pyFalsyStr, hne, hb, hactive,
    Verify.login_success, Verify.success_url, pyOrStr_eq_getD _ _ hnx]

/-- C1 witness: the spec scenario (valid-token maps to active a@b.com,
LOGIN_REDIRECT_URL=/success). -/
theorem Verify.post_success_active_witness :
    Verify.handle cfgEx safeFalse backendEx reqVerifyEx =
      ([Effect.sanity, Effect.authenticate "valid-token", Effect.login userEx],
       { status := 200
         body := Body.json (some "a@b.com") (some "/success") none
         headers := [] }) :=
  Verify.post_success_active cfgEx safeFalse backendEx reqVerifyEx "valid-token"
    userEx rfl rfl (by decide) rfl rfl (by decide)

/-- C3: a POST to the Verify handler where the backend raises any
exception (verification-specific or not) answers 403 with the failure
URL, and the error object is logged at error severity; the failure path
logs exactly when an error object is supplied to it. -/
theorem Verify.post_backend_raises (cfg : Settings) (safe : SafeUrl)
    (backend : Backend) (req : Request) (a : String) (e : Err)
    (hm : req.methName = "post")
    (ha : req.post.lookup "assertion" = some a) (hne : a ≠ "")
    (hb : backend req a = AuthOutcome.raises e) :
    Verify.handle cfg safe backend req =
      ([Effect.sanity, Effect.authenticate a, Effect.logError e],
       { status := 403
         body := Body.json none (some (cfg.LOGIN_REDIRECT_URL_FAILURE.getD "/")) none
         headers := [] }) ∧
    (∀ e0, (Verify.login_failure cfg (some e0)).1 = [Effect.logError e0]) ∧
    (Verify.login_failure cfg none).1 = [] := by
  refine ⟨?_, fun e0 => rfl, rfl⟩
  simp [Verify.handle, hm, Verify.post, ha, pyFalsyStr, hne, hb,
    Verify.login_failure, Verify.failure_url]

/-- C3 witness: a backend that raises the verification-specific error. -/
theorem Verify.post_backend_raises_witness :
    Verify.handle cfgEx safeFalse backendRaises reqVerifyEx =
      ([Effect.sanity, Effect.authenticate "valid-token", Effect.logError errEx],
       { status := 403, body := Body.json none (some "/fail") none, headers := [] }) ∧
    (∀ e0, (Verify.login_failure cfgEx (some e0)).1 = [Effect.logError e0]) ∧
    (Verify.login_failure cfgEx none).1 = [] :=
  Verify.post_backend_raises cfgEx safeFalse backendRaises reqVerifyEx
    "valid-token" errEx rfl rfl (by decide) rfl

/-- C4: a POST to the Verify handler where the backend returns without
raising but yields no principal or an inactive one answers 403 with the
failure URL and logs nothing. -/
theorem Verify.post_inactive_or_none (cfg : Settings) (safe : SafeUrl)
    (backend : Backend) (req : Request) (a : String) (u : Option User)
    (hm : req.methName = "post")
    (ha : req.post.lookup "assertion" = some a) (hne : a ≠ "")
    (hb : backend req a = AuthOutcome.success u)
    (hu : u = none ∨ ∃ w, u = some w ∧ w.is_active = false) :
    Verify.handle cfg safe backend req =
      ([Effect.sanity, Effect.authenticate a],
       { status := 403
         body := Body.json none (some (cfg.LOGIN_REDIRECT_URL_FAILURE.getD "/")) none
         headers := [] }) ∧
    ∀ e, Effect.logError e ∉ (Verify.handle cfg safe backend req).1 := by
  have h1 : Verify.handle cfg safe backend req =
      ([Effect.sanity, Effect.authenticate a],
       { status := 403
         body := Body.json none (some (cfg.LOGIN_REDIRECT_URL_FAILURE.getD "/")) none
         headers := [] }) := by
    rcases hu with h0 | ⟨w, hw, hwa⟩
    · subst h0
      simp [Verify.handle, hm, Verify.post, ha, pyFalsyStr, hne, hb,
        Verify.login_failure, Verify.failure_url]
    · subst hw
      simp [Verify.handle, hm, Verify.post, ha, pyFalsyStr, hne, hb, hwa,
        Verify.login_failure, Verify.failure_url]
  refine ⟨h1, ?_⟩
  rw [h1]
  intro e
  simp

/-- C4 witness: the example backend maps the assertion `other` to no
principal. -/
theorem Verify.post_inactive_or_none_witness :
    Verify.handle cfgEx safeFalse backendEx reqOtherAssert =
      ([Effect.sanity, Effect.authenticate "other"],
       { status := 403, body := Body.json none (some "/fail") none, headers := [] }) ∧
    ∀ e, Effect.logError e ∉ (Verify.handle cfgEx safeFalse backendEx reqOtherAssert).1 :=
  Verify.post_inactive_or_none cfgEx safeFalse backendEx reqOtherAssert "other"
    none rfl rfl (by decide) rfl (Or.inl rfl)

/-- C5: the redirect-target resolver returns the `next` POST parameter
exactly when it is present and the URL-safety validator accepts it
against the request host, and returns `none` otherwise; in particular a
rejected value is never returned.  The resolver is a pure function. -/
theorem get_next_resolves (safe : SafeUrl) (req : Request) :
    (∀ v, _get_next safe req = some v ↔
       (req.post.lookup "next" = some v ∧ safe (some v) req.host = true)) ∧
    (safe (req.post.lookup "next") req.host = false →
       _get_next safe req = none) := by
  have hun : _get_next safe req =
      if safe (req.post.lookup "next") req.host then req.post.lookup "next"
      else none := rfl
  by_cases hb : safe (req.post.lookup "next") req.host = true
  · have hv : _get_next safe req = req.post.lookup "next" := by
      rw [hun, if_pos hb]
    constructor
    · intro v
      rw [hv]
      constructor
      · intro h
        refine ⟨h, ?_⟩
        rw [h] at hb
        exact hb
      · exact And.left
    · intro h
      exact absurd hb (by rw [h]; exact Bool.false_ne_true)
  · have hb0 : safe (req.post.lookup "next") req.host = false :=
      Bool.eq_false_iff.mpr hb
    have hv : _get_next safe req = none := by
      rw [hun, if_neg hb]
    constructor
    · intro v
      rw [hv]
      constructor
      · intro h
        cases h
      · rintro ⟨h1, h2⟩
        rw [h1] at hb0
        exact absurd h2 (by rw [hb0]; exact Bool.false_ne_true)
    · intro _
      exact hv

/-- C5 witness: a present, accepted value is returned; a rejected one
resolves to none. -/
theorem get_next_resolves_witness :
    _get_next safeAsdf reqNextEx = some "/asdf" ∧
    _get_next safeFalse reqNextEx = none :=
  ⟨((get_next_resolves safeAsdf reqNextEx).1 "/asdf").mpr ⟨rfl, rfl⟩,
   (get_next_resolves safeFalse reqNextEx).2 rfl⟩

/-- C6: on any handler, the method-not-allowed envelope is a 405 whose
JSON body is the error message and whose Allow header joins exactly the
upper-cased names of the methods the concrete handler implements; in
particular a GET to the POST-only Verify handler answers 405 with POST
as the Allow header. -/
theorem http_method_not_allowed_contract :
    (∀ hasMethod : String → Bool,
      (JSONView.http_method_not_allowed hasMethod).status = 405 ∧
      (JSONView.http_method_not_allowed hasMethod).body =
        Body.json none none (some "Method not allowed.") ∧
      (JSONView.http_method_not_allowed hasMethod).headers =
        [("Allow", String.intercalate ", "
          ((http_method_names.filter hasMethod).map pyUpper))] ∧
      (∀ M, M ∈ (http_method_names.filter hasMethod).map pyUpper ↔
        ∃ m, m ∈ http_method_names ∧ hasMethod m = true ∧ M = pyUpper m)) ∧
    (∀ (cfg : Settings) (safe : SafeUrl) (backend : Backend) (req : Request),
      req.methName = "get" →
      Verify.handle cfg safe backend req =
        ([Effect.sanity],
         { status := 405
           body := Body.json none none (some "Method not allowed.")
           headers := [("Allow", "POST")] })) := by
  constructor
  · intro hasMethod
    refine ⟨rfl, rfl, rfl, ?_⟩
    intro M
    simp only [List.mem_map, List.mem_filter]
    constructor
    · rintro ⟨m, ⟨hm1, hm2⟩, hm3⟩
      exact ⟨m, hm1, hm2, hm3.symm⟩
    · rintro ⟨m, hm1, hm2, hm3⟩
      exact ⟨m, ⟨hm1, hm2⟩, hm3.symm⟩
  · intro cfg safe backend req hm
    have hif : (req.methName == "post") = false := by
      rw [hm]
      rfl
    have he : Verify.handle cfg safe backend req =
        ([Effect.sanity], JSONView.http_method_not_allowed Verify.hasMethod) := by
      unfold Verify.handle
      rw [hif]
      rfl
    rw [he]
    have henv : JSONView.http_method_not_allowed Verify.hasMethod =
        { status := 405
          body := Body.json none none (some "Method not allowed.")
          headers := [("Allow", "POST")] } := by decide
    rw [henv]

/-- C6 witness: a GET request to the Verify handler. -/
theorem http_method_not_allowed_contract_witness :
    Verify.handle cfgEx safeFalse backendEx reqGetEx =
      ([Effect.sanity],
       { status := 405
         body := Body.json none none (some "Method not allowed.")
         headers := [("Allow", "POST")] }) :=
  http_method_not_allowed_contract.2 cfgEx safeFalse backendEx reqGetEx rfl

/-- C7: a POST to the Logout handler always invokes the framework logout
primitive and answers 200 with the resolved next URL as redirect when
one resolves, otherwise LOGOUT_REDIRECT_URL (defaulting to /).  The
hypothesis on `_get_next` records that the framework validator never
accepts an empty URL. -/
theorem Logout.post_contract (cfg : Settings) (safe : SafeUrl) (req : Request)
    (hm : req.methName = "post") (hnx : _get_next safe req ≠ some "") :
    Logout.handle cfg safe req =
      ([Effect.logoutCall],
       { status := 200
         body := Body.json none
           (some ((_get_next safe req).getD (cfg.LOGOUT_REDIRECT_URL.getD "/"))) none
         headers := [] }) := by
  simp [Logout.handle, hm, Logout.post, Logout.redirect_url,
    pyOrStr_eq_getD _ _ hnx]

/-- C7 witness: a bare POST with LOGOUT_REDIRECT_URL=/out. -/
theorem Logout.post_contract_witness :
    Logout.handle cfgEx safeFalse reqPostEx =
      ([Effect.logoutCall],
       { status := 200, body := Body.json none (some "/out") none, headers := [] }) :=
  Logout.post_contract cfgEx safeFalse reqPostEx rfl (by decide)

/-- C8: a GET to the CSRF token handler answers 200 whose body is the
context's CSRF token forced to a concrete string, with the
Cache-Control max-age=0 header; when the token is a deferred value its
evaluation is forced before the response is built and the body is the
evaluated string. -/
theorem CsrfToken.get_contract (ctxOf : Request → Option LazyStr) (req : Request)
    (hm : req.methName = "get") :
    (CsrfToken.handle ctxOf req).2 =
      { status := 200
        body := Body.text (six_text_type ((ctxOf req).getD (LazyStr.strict ""))).2
        headers := [("Cache-Control", "max-age=0")] } ∧
    ∀ f, ctxOf req = some (LazyStr.deferred f) →
      Effect.forceLazy ∈ (CsrfToken.handle ctxOf req).1 ∧
      (CsrfToken.handle ctxOf req).2.body = Body.text (f ()) := by
  have hif : (req.methName == "get") = true := by
    rw [hm]
    rfl
  have he : CsrfToken.handle ctxOf req = CsrfToken.get ctxOf req := by
    unfold CsrfToken.handle
    rw [hif]
    rfl
  constructor
  · rw [he]
    rfl
  · intro f hf
    rw [he]
    constructor
    · simp only [CsrfToken.get, hf, Option.getD, six_text_type]
      exact List.mem_singleton.mpr rfl
    · simp only [CsrfToken.get, hf, Option.getD, six_text_type]

/-- C8 witness: a deferred token evaluating to asdf. -/
theorem CsrfToken.get_contract_witness :
    (CsrfToken.handle ctxDeferredEx reqGetEx).2 =
      { status := 200
        body := Body.text "asdf"
        headers := [("Cache-Control", "max-age=0")] } ∧
    Effect.forceLazy ∈ (CsrfToken.handle ctxDeferredEx reqGetEx).1 := by
  have h := CsrfToken.get_contract ctxDeferredEx reqGetEx rfl
  exact ⟨h.1, (h.2 (fun _ => "asdf") rfl).1⟩

lemma Verify.post_response_cases (cfg : Settings) (safe : SafeUrl)
    (backend : Backend) (req : Request) :
    (Verify.post cfg safe backend req).2 = (Verify.login_failure cfg none).2 ∨
    ∃ user, (Verify.post cfg safe backend req).2 =
      (Verify.login_success cfg safe req user).2 := by
  unfold Verify.post
  dsimp only
  split
  · exact Or.inl rfl
  · split
    · exact Or.inl rfl
    · split
      · split
        · exact Or.inr ⟨_, rfl⟩
        · exact Or.inl rfl
      · exact Or.inl rfl

/-- C9 counterexample: a GET to the Verify handler produces the 405
method-not-allowed response, whose body carries neither the success
shape nor the redirect-only shape, so the invariant as stated fails on
a response the handlers produce. -/
theorem specShapeInvariant_fails :
    specShapeInvariant (Verify.handle cfgEx safeFalse backendEx reqGetEx).2 = false ∧
    (Verify.handle cfgEx safeFalse backendEx reqGetEx).2.status = 405 ∧
    (Verify.handle cfgEx safeFalse backendEx reqGetEx).2.body =
      Body.json none none (some "Method not allowed.") := by
  refine ⟨?_, ?_, ?_⟩ <;> decide

/-- C9 amended: every response a handler produces is a success payload
(email and redirect) at status 200, a redirect-only payload (status 403
on the Verify failure paths, status 200 from Logout), an error-only
method-not-allowed payload at status 405, or the CSRF handler's plain
text at status 200; no response mixes these shapes or carries an email
without a redirect. -/
theorem response_shape_invariant (cfg : Settings) (safe : SafeUrl)
    (backend : Backend) (ctxOf : Request → Option LazyStr) (req : Request) :
    (((Verify.handle cfg safe backend req).2.body.successShape = true ∧
      (Verify.handle cfg safe backend req).2.status = 200) ∨
     ((Verify.handle cfg safe backend req).2.body.redirectOnlyShape = true ∧
      (Verify.handle cfg safe backend req).2.status = 403) ∨
     ((Verify.handle cfg safe backend req).2.body.errorOnlyShape = true ∧
      (Verify.handle cfg safe backend req).2.status = 405)) ∧
    (((Logout.handle cfg safe req).2.body.redirectOnlyShape = true ∧
      (Logout.handle cfg safe req).2.status = 200) ∨
     ((Logout.handle cfg safe req).2.body.errorOnlyShape = true ∧
      (Logout.handle cfg safe req).2.status = 405)) ∧
    (((CsrfToken.handle ctxOf req).2.body.isText = true ∧
      (CsrfToken.handle ctxOf req).2.status = 200) ∨
     ((CsrfToken.handle ctxOf req).2.body.errorOnlyShape = true ∧
      (CsrfToken.handle ctxOf req).2.status = 405)) := by
  refine ⟨?_, ?_, ?_⟩
  · by_cases hm : (req.methName == "post") = true
    · have he : (Verify.handle cfg safe backend req).2 =
          (Verify.post cfg safe backend req).2 := by
        unfold Verify.handle
        rw [hm]
        rfl
      rw [he]
      rcases Verify.post_response_cases cfg safe backend req with h | ⟨user, h⟩
      · rw [h]
        exact Or.inr (Or.inl ⟨rfl, rfl⟩)
      · rw [h]
        exact Or.inl ⟨rfl, rfl⟩
    · have hm0 : (req.methName == "post") = false := Bool.eq_false_iff.mpr hm
      have he : (Verify.handle cfg safe backend req).2 =
          JSONView.http_method_not_allowed Verify.hasMethod := by
        unfold Verify.handle
        rw [hm0]
        rfl
      rw [he]
      exact Or.inr (Or.inr ⟨rfl, rfl⟩)
  · by_cases hm : (req.methName == "post") = true
    · have he : (Logout.handle cfg safe req).2 = (Logout.post cfg safe req).2 := by
        unfold Logout.handle
        rw [hm]
        rfl
      rw [he]
      exact Or.inl ⟨rfl, rfl⟩
    · have hm0 : (req.methName == "post") = false := Bool.eq_false_iff.mpr hm
      have he : (Logout.handle cfg safe req).2 =
          JSONView.http_method_not_allowed Logout.hasMethod := by
        unfold Logout.handle
        rw [hm0]
        rfl
      rw [he]
      exact Or.inr ⟨rfl, rfl⟩
  · by_cases hm : (req.methName == "get") = true
    · have he : (CsrfToken.handle ctxOf req).2 = (CsrfToken.get ctxOf req).2 := by
        unfold CsrfToken.handle
        rw [hm]
        rfl
      rw [he]
      exact Or.inl ⟨rfl, rfl⟩
    · have hm0 : (req.methName == "get") = false := Bool.eq_false_iff.mpr hm
      have he : (CsrfToken.handle ctxOf req).2 =
          JSONView.http_method_not_allowed CsrfToken.hasMethod := by
        unfold CsrfToken.handle
        rw [hm0]
        rfl
      rw [he]
      exact Or.inr ⟨rfl, rfl⟩
